import Mathlib

/-!
Verification development for the file-detection watcher
(src/file_detection.py).

The program watches the directory of a target file for change
notifications; on the first notification whose file name equals the base
name of the watched path it kills every process whose name equals the given
process name, truncates the watched file, sets the shared flag IS_RUNNING
to false and stops watching.  The foreground controller polls IS_RUNNING
once per second, catches KeyboardInterrupt, and always ends with a blocking
read of one input line.

The embedding below is a shallow one.  OS interactions are replaced by
explicit data: the process table is a list of `ProcInfo` records whose
`killOk` field tells whether the `proc.kill()` call for that process
returns normally or raises (psutil raises NoSuchProcess when the process
already exited and AccessDenied when the kill is not permitted; the source
loop in `kill_process_by_name` has no exception handler around the call).
The watched file is an `Option String` (`none` when the file does not
exist); opening a path in Python write mode `w` replaces its content with
the empty string, creating the file when it is absent, and the simulated
lock schedule `locked : Nat → Bool` tells on which 0-based attempt the
`open` call raises PermissionError.  Every observable action is recorded
in a trace of `Ev` events so that ordering and counting properties can be
stated.
-/

namespace FileDetection

/-- One entry of the process table as seen through
`psutil.process_iter` queried for the pid and name attributes.  `killOk` records
whether `proc.kill()` on this process returns normally (`true`) or raises
an exception such as NoSuchProcess or AccessDenied (`false`). -/
structure ProcInfo where
  pid : Nat
  name : String
  killOk : Bool
deriving Repr, DecidableEq

/-- Observable actions of the watcher thread, in the order they happen:
a `proc.kill()` call on a pid, an `open(file_path, w)` attempt inside
`clear_file_content`, a one-second `time.sleep(1)` of the retry loop, and
the assignment `IS_RUNNING = False`. -/
inductive Ev where
  | killAttempt (pid : Nat)
  | openAttempt
  | sleep1
  | setRunningFalse
deriving Repr, DecidableEq

/-- Whether an event is a termination call. -/
def isKill : Ev → Bool
  | Ev.killAttempt _ => true
  | _ => false

/-- Embedding of `kill_process_by_name` (src/file_detection.py lines
30-35): iterate over the process table and call `proc.kill()` on every
process whose name equals `process_name`.  Returns the trace of kill calls
together with a flag telling whether an exception escaped.  The source has
no try/except around `proc.kill()`, so a raising call stops the iteration
and propagates; the raising call itself was still issued and is recorded. -/
def kill_process_by_name (process_name : String) : List ProcInfo → List Ev × Bool
  | [] => ([], false)
  | p :: ps =>
    if p.name = process_name then
      if p.killOk then
        let r := kill_process_by_name process_name ps
        (Ev.killAttempt p.pid :: r.1, r.2)
      else ([Ev.killAttempt p.pid], true)
    else kill_process_by_name process_name ps

/-- The retry loop of `clear_file_content` (lines 40-49), with `i` the
current 0-based attempt index and `rem` the remaining iterations of
`range(max_retries)`.  `locked i` models `open(file_path, w)` raising
PermissionError on attempt `i`; that branch is caught and followed by
`time.sleep(1)`.  A successful open in write mode replaces the file
content with the empty string — creating the file when `fs = none` — and
the `break` ends the loop.  Returns the trace, the final file state and
the number of attempts made.  No exception escapes this loop: the only
modelled failure is PermissionError and it is always caught. -/
def clearLoop (locked : Nat → Bool) : Nat → Nat → Option String → List Ev × Option String × Nat
  | _, 0, fs => ([], fs, 0)
  | i, rem + 1, fs =>
    if locked i then
      let r := clearLoop locked (i + 1) rem fs
      (Ev.openAttempt :: Ev.sleep1 :: r.1, r.2.1, r.2.2 + 1)
    else ([Ev.openAttempt], some "", 1)

/-- Embedding of `clear_file_content` (lines 38-49): up to
`max_retries = 5` attempts starting at attempt 0. -/
def clear_file_content (locked : Nat → Bool) (fs : Option String) :
    List Ev × Option String × Nat :=
  clearLoop locked 0 5 fs

/-- Path separator characters recognised by `os.path.basename` on
Windows: backslash and the alternative forward slash. -/
def isSep (c : Char) : Bool := c = '\\' || c = '/'

/-- Embedding of `os.path.basename` for the watched path: the part of the
path after the last separator.  (Drive-relative forms such as `C:name`,
where ntpath would also strip the drive prefix, do not occur in the
claims and are treated as plain names.) -/
def basename (p : String) : String :=
  ⟨(p.data.reverse.takeWhile (fun c => !isSep c)).reverse⟩

/-- The responder body run on a matching notification event (lines 76-77):
`kill_process_by_name` followed by `clear_file_content`.  Because the kill
loop has no exception handler, a raising kill call propagates out of the
responder and the truncate step is never reached; the returned flag tells
whether that happened.  Returns (trace, final file, raised). -/
def respond (process_name : String) (procs : List ProcInfo) (locked : Nat → Bool)
    (fs : Option String) : List Ev × Option String × Bool :=
  let k := kill_process_by_name process_name procs
  if k.2 then (k.1, fs, true)
  else
    let c := clear_file_content locked fs
    (k.1 ++ c.1, c.2.1, false)

/-- Result of consuming one notification batch inside `monitor_file`.
`running` is the value of IS_RUNNING afterwards, `raised` tells whether an
exception escaped (killing the daemon thread), `triggered` whether the
responder was invoked. -/
structure BatchResult where
  trace : List Ev
  running : Bool
  file : Option String
  raised : Bool
  triggered : Bool
deriving Repr, DecidableEq

/-- The `for action, filename in results` loop of `monitor_file` (lines
73-79) over one batch of notification events, given as the list of
affected file names (the action kind is never inspected).  The first name
equal to `targetBase` invokes the responder; on success IS_RUNNING is set
to false and the `break` ends the batch; a raising responder propagates
with IS_RUNNING left true.  Non-matching names are skipped. -/
def handleBatch (targetBase process_name : String) (procs : List ProcInfo)
    (locked : Nat → Bool) (fs : Option String) : List String → BatchResult
  | [] => ⟨[], true, fs, false, false⟩
  | f :: rest =>
    if f = targetBase then
      let r := respond process_name procs locked fs
      if r.2.2 then ⟨r.1, true, r.2.1, true, true⟩
      else ⟨r.1 ++ [Ev.setRunningFalse], false, r.2.1, false, true⟩
    else handleBatch targetBase process_name procs locked fs rest

/-- Result of a whole run of the watcher thread over a sequence of
notification batches.  `triggers` counts responder invocations. -/
structure RunResult where
  trace : List Ev
  running : Bool
  file : Option String
  raised : Bool
  triggers : Nat
deriving Repr, DecidableEq

/-- The `while IS_RUNNING` loop of `monitor_file` (lines 66-79) over the
sequence of batches delivered by `ReadDirectoryChangesW`: IS_RUNNING is
checked before each blocking read, each batch is consumed by
`handleBatch`, and an escaping exception ends the thread with the
remaining batches unread. -/
def monitorLoop (targetBase process_name : String) (procs : List ProcInfo)
    (locked : Nat → Bool) (fs : Option String) (running : Bool) :
    List (List String) → RunResult
  | [] => ⟨[], running, fs, false, 0⟩
  | b :: bs =>
    if running then
      let r := handleBatch targetBase process_name procs locked fs b
      if r.raised then
        ⟨r.trace, r.running, r.file, true, if r.triggered then 1 else 0⟩
      else
        let rest := monitorLoop targetBase process_name procs locked r.file r.running bs
        ⟨r.trace ++ rest.trace, rest.running, rest.file, rest.raised,
          (if r.triggered then 1 else 0) + rest.triggers⟩
    else ⟨[], running, fs, false, 0⟩

/-- Embedding of `monitor_file` (lines 52-79) after the directory handle
has been opened successfully: the target base name is computed from the
watched path and the event loop starts with IS_RUNNING true. -/
def monitor_file (file_to_watch process_name : String) (procs : List ProcInfo)
    (locked : Nat → Bool) (fs : Option String) (batches : List (List String)) : RunResult :=
  monitorLoop (basename file_to_watch) process_name procs locked fs true batches

/-- The usage line printed on an arity mismatch (line 84). -/
def usageMsg : String := "Usage: FileDetection <file_path> <process_name>"

/-- Outcome of the startup validation: the lines printed to standard
output, the exit code when the program exits at validation, and the
(file path, process name) pair handed to the watcher thread when it
proceeds. -/
structure StartResult where
  stdout : List String
  exitCode : Option Nat
  watch : Option (String × String)
deriving Repr, DecidableEq

/-- Embedding of the argument validation and startup of the `__main__`
block (lines 82-94).  `argv` is `sys.argv`, whose first element is the
program name; with `len(sys.argv) != 3` the usage line is printed to
standard output and the process exits with code 1 before any watch is
started (`watch = none`). -/
def mainStart (argv : List String) : StartResult :=
  if argv.length ≠ 3 then ⟨[usageMsg], some 1, none⟩
  else
    let f := argv.getD 1 ""
    let p := argv.getD 2 ""
    ⟨["Monitoring " ++ f ++ " for activity..."], none, some (f, p)⟩

/-- Observable actions of the foreground controller after startup. -/
inductive FgAction where
  | sleepSec
  | printInterrupted
  | readAck
deriving Repr, DecidableEq

/-- The foreground wait loop of the `__main__` block (lines 96-102):
while the shared flag reads true, sleep one second; a KeyboardInterrupt
arriving during iteration `i` leaves the loop through the `except` branch
which prints a message; the `finally` block always performs the blocking
`input("Press Enter to quit")` before the process exits.  `flags i` is
the value of IS_RUNNING observed at iteration `i`, `intr i` tells whether
an interrupt arrives during the sleep of iteration `i`.  Returns `none`
while the loop has not ended within `fuel` iterations, and otherwise the
ordered list of actions performed from iteration `i` on. -/
def foregroundLoop (flags intr : Nat → Bool) : Nat → Nat → Option (List FgAction)
  | _, 0 => none
  | i, fuel + 1 =>
    if !flags i then some [FgAction.readAck]
    else if intr i then
      some [FgAction.sleepSec, FgAction.printInterrupted, FgAction.readAck]
    else
      match foregroundLoop flags intr (i + 1) fuel with
      | none => none
      | some acts => some (FgAction.sleepSec :: acts)

/-! ## Helper lemmas about the kill loop -/

/-- Every event emitted by the kill loop is a termination call. -/
lemma kill_events_isKill (process_name : String) (procs : List ProcInfo) :
    ∀ e ∈ (kill_process_by_name process_name procs).1, isKill e = true := by
  induction procs with
  | nil => simp [kill_process_by_name]
  | cons p ps ih =>
    by_cases hn : p.name = process_name
    · cases hko : p.killOk
      · simp [kill_process_by_name, hn, hko, isKill]
      · simp only [kill_process_by_name, hn, if_true, hko]
        intro e he
        rcases List.mem_cons.mp he with h | h
        · simp [h, isKill]
        · exact ih e h
    · simpa [kill_process_by_name, hn] using ih

/-- When every matching process can be killed, the kill loop issues exactly
one termination call per matching process, in table order, and no
exception escapes. -/
lemma kill_process_by_name_of_ok (process_name : String) (procs : List ProcInfo)
    (hk : ∀ p ∈ procs, p.name = process_name → p.killOk = true) :
    kill_process_by_name process_name procs =
      ((procs.filter fun p => p.name == process_name).map fun p => Ev.killAttempt p.pid,
        false) := by
  induction procs with
  | nil => rfl
  | cons p ps ih =>
    have ih2 := ih fun q hq hqn => hk q (List.mem_cons_of_mem p hq) hqn
    by_cases hn : p.name = process_name
    · have hko : p.killOk = true := hk p (List.mem_cons_self p ps) hn
      simp [kill_process_by_name, hn, hko, ih2, List.filter_cons]
    · simp [kill_process_by_name, hn, ih2, List.filter_cons]

/-! ## Helper lemmas about the truncation retry loop -/

/-- Every event emitted by the truncation retry loop is an open attempt or
a one-second sleep. -/
lemma clearLoop_events (locked : Nat → Bool) (fs : Option String) :
    ∀ rem i, ∀ e ∈ (clearLoop locked i rem fs).1, e = Ev.openAttempt ∨ e = Ev.sleep1 := by
  intro rem
  induction rem with
  | zero => simp [clearLoop]
  | succ n ih =>
    intro i e he
    cases hl : locked i
    · simp [clearLoop, hl] at he
      simp [he]
    · simp only [clearLoop, hl, if_true] at he
      rcases List.mem_cons.mp he with h | h
      · simp [h]
      · rcases List.mem_cons.mp h with h2 | h2
        · simp [h2]
        · exact ih (i + 1) e h2

/-- The retry loop with at least one remaining iteration always attempts
an open. -/
lemma clearLoop_open_mem (locked : Nat → Bool) (fs : Option String) (i n : Nat) :
    Ev.openAttempt ∈ (clearLoop locked i (n + 1) fs).1 := by
  cases hl : locked i <;> simp [clearLoop, hl]

/-! ## Shape of a batch and of a whole monitoring run -/

/-- Consuming one batch has exactly three possible outcomes: no matching
event (nothing happens), a matching event whose kill step raises (the
exception propagates with IS_RUNNING left true and the file untouched), or
a matching event whose responder completes (kill trace, truncate trace,
then the flag assignment). -/
lemma handleBatch_shape (tb process_name : String) (procs : List ProcInfo)
    (locked : Nat → Bool) (fs : Option String) (batch : List String) :
    handleBatch tb process_name procs locked fs batch = ⟨[], true, fs, false, false⟩ ∨
    ((kill_process_by_name process_name procs).2 = true ∧
      handleBatch tb process_name procs locked fs batch =
        ⟨(kill_process_by_name process_name procs).1, true, fs, true, true⟩) ∨
    ((kill_process_by_name process_name procs).2 = false ∧
      handleBatch tb process_name procs locked fs batch =
        ⟨(kill_process_by_name process_name procs).1 ++ (clear_file_content locked fs).1 ++
            [Ev.setRunningFalse],
          false, (clear_file_content locked fs).2.1, false, true⟩) := by
  induction batch with
  | nil => left; rfl
  | cons f rest ih =>
    by_cases hf : f = tb
    · cases hk : (kill_process_by_name process_name procs).2
      · right; right
        exact ⟨rfl, by simp [handleBatch, hf, respond, hk]⟩
      · right; left
        exact ⟨rfl, by simp [handleBatch, hf, respond, hk]⟩
    · simpa [handleBatch, hf] using ih

/-- A monitoring loop entered with IS_RUNNING false reads no batch. -/
lemma monitorLoop_not_running (tb process_name : String) (procs : List ProcInfo)
    (locked : Nat → Bool) (fs : Option String) (bs : List (List String)) :
    monitorLoop tb process_name procs locked fs false bs = ⟨[], false, fs, false, 0⟩ := by
  cases bs <;> rfl

/-- A whole monitoring run has exactly three possible outcomes: never
triggered, triggered with a raising kill step, or triggered with a
completed responder. -/
lemma monitorLoop_shape (tb process_name : String) (procs : List ProcInfo)
    (locked : Nat → Bool) (fs : Option String) (batches : List (List String)) :
    monitorLoop tb process_name procs locked fs true batches = ⟨[], true, fs, false, 0⟩ ∨
    ((kill_process_by_name process_name procs).2 = true ∧
      monitorLoop tb process_name procs locked fs true batches =
        ⟨(kill_process_by_name process_name procs).1, true, fs, true, 1⟩) ∨
    ((kill_process_by_name process_name procs).2 = false ∧
      monitorLoop tb process_name procs locked fs true batches =
        ⟨(kill_process_by_name process_name procs).1 ++ (clear_file_content locked fs).1 ++
            [Ev.setRunningFalse],
          false, (clear_file_content locked fs).2.1, false, 1⟩) := by
  induction batches with
  | nil => left; rfl
  | cons b bs ih =>
    rcases handleBatch_shape tb process_name procs locked fs b with hb | ⟨hk, hb⟩ | ⟨hk, hb⟩
    · rcases ih with h | ⟨hk, h⟩ | ⟨hk, h⟩
      · left; simp [monitorLoop, hb, h]
      · right; left; exact ⟨hk, by simp [monitorLoop, hb, h]⟩
      · right; right; exact ⟨hk, by simp [monitorLoop, hb, h]⟩
    · right; left
      exact ⟨hk, by simp [monitorLoop, hb]⟩
    · right; right
      exact ⟨hk, by simp [monitorLoop, hb, monitorLoop_not_running]⟩

/-- A batch with no matching file name leaves everything unchanged. -/
lemma handleBatch_nomatch (tb process_name : String) (procs : List ProcInfo)
    (locked : Nat → Bool) (fs : Option String) (batch : List String)
    (h : ∀ f ∈ batch, f ≠ tb) :
    handleBatch tb process_name procs locked fs batch = ⟨[], true, fs, false, false⟩ := by
  induction batch with
  | nil => rfl
  | cons f rest ih =>
    have hf : f ≠ tb := h f (List.mem_cons_self f rest)
    rw [handleBatch, if_neg hf]
    exact ih fun g hg => h g (List.mem_cons_of_mem f hg)

/-- A run in which no batch carries a matching file name never triggers. -/
lemma monitorLoop_nomatch (tb process_name : String) (procs : List ProcInfo)
    (locked : Nat → Bool) (fs : Option String) (batches : List (List String))
    (h : ∀ b ∈ batches, ∀ f ∈ b, f ≠ tb) :
    monitorLoop tb process_name procs locked fs true batches = ⟨[], true, fs, false, 0⟩ := by
  induction batches with
  | nil => rfl
  | cons b bs ih =>
    have hb := handleBatch_nomatch tb process_name procs locked fs b
      (h b (List.mem_cons_self b bs))
    have ih2 := ih fun b2 hb2 => h b2 (List.mem_cons_of_mem b hb2)
    simp [monitorLoop, hb, ih2]

/-- The flag assignment is never part of the kill trace. -/
lemma setRunningFalse_not_mem_kill (process_name : String) (procs : List ProcInfo) :
    Ev.setRunningFalse ∉ (kill_process_by_name process_name procs).1 := by
  intro hmem
  simpa [isKill] using kill_events_isKill process_name procs _ hmem

/-- The flag assignment is never part of the truncation trace. -/
lemma setRunningFalse_not_mem_clear (locked : Nat → Bool) (fs : Option String) :
    Ev.setRunningFalse ∉ (clear_file_content locked fs).1 := by
  intro hmem
  rcases clearLoop_events locked fs 5 0 _ hmem with h | h <;> cases h

/-! ## Claim theorems -/

/-- C4: with the file locked on the first 4 attempts and free on the 5th,
truncation succeeds with exactly 5 attempts; with the file locked on every
attempt the truncate step returns (no exception surfaces, the only failure
is the caught PermissionError) after exactly 5 attempts and leaves the
content unchanged; in both traces a one-second sleep separates consecutive
open attempts. -/
theorem c4_truncate_retry_policy (locked : Nat → Bool) (fs : Option String) :
    ((∀ i, i < 4 → locked i = true) → locked 4 = false →
      clear_file_content locked fs =
        ([Ev.openAttempt, Ev.sleep1, Ev.openAttempt, Ev.sleep1, Ev.openAttempt, Ev.sleep1,
            Ev.openAttempt, Ev.sleep1, Ev.openAttempt],
          some "", 5)) ∧
    ((∀ i, i < 5 → locked i = true) →
      clear_file_content locked fs =
        ([Ev.openAttempt, Ev.sleep1, Ev.openAttempt, Ev.sleep1, Ev.openAttempt, Ev.sleep1,
            Ev.openAttempt, Ev.sleep1, Ev.openAttempt, Ev.sleep1],
          fs, 5)) := by
  constructor
  · intro hA h4
    have h0 := hA 0 (by norm_num)
    have h1 := hA 1 (by norm_num)
    have h2 := hA 2 (by norm_num)
    have h3 := hA 3 (by norm_num)
    simp [clear_file_content, clearLoop, h0, h1, h2, h3, h4]
  · intro hA
    have h0 := hA 0 (by norm_num)
    have h1 := hA 1 (by norm_num)
    have h2 := hA 2 (by norm_num)
    have h3 := hA 3 (by norm_num)
    have h4 := hA 4 (by norm_num)
    simp [clear_file_content, clearLoop, h0, h1, h2, h3, h4]

/-- Witness for C4 at two concrete lock schedules. -/
theorem c4_truncate_retry_policy_witness :
    clear_file_content (fun i => decide (i < 4)) (some "data") =
      ([Ev.openAttempt, Ev.sleep1, Ev.openAttempt, Ev.sleep1, Ev.openAttempt, Ev.sleep1,
          Ev.openAttempt, Ev.sleep1, Ev.openAttempt],
        some "", 5) ∧
    clear_file_content (fun _ => true) (some "data") =
      ([Ev.openAttempt, Ev.sleep1, Ev.openAttempt, Ev.sleep1, Ev.openAttempt, Ev.sleep1,
          Ev.openAttempt, Ev.sleep1, Ev.openAttempt, Ev.sleep1],
        some "data", 5) :=
  ⟨(c4_truncate_retry_policy (fun i => decide (i < 4)) (some "data")).1
      (fun _ hi => decide_eq_true hi) (by decide),
    (c4_truncate_retry_policy (fun _ => true) (some "data")).2 (fun _ _ => rfl)⟩

/-- C10: when the watched file does not exist at truncation time, the
first unlocked open attempt creates a new empty file at the watched path
(Python write mode creates a missing file) instead of failing with a
missing-file error, and the loop ends after that single attempt. -/
theorem c10_missing_file_created (locked : Nat → Bool) (h : locked 0 = false) :
    clear_file_content locked none = ([Ev.openAttempt], some "", 1) := by
  simp [clear_file_content, clearLoop, h]

/-- Witness for C10 with no lock contention. -/
theorem c10_missing_file_created_witness :
    clear_file_content (fun _ => false) none = ([Ev.openAttempt], some "", 1) :=
  c10_missing_file_created (fun _ => false) rfl

/-- C8: with any number of positional arguments other than two (so
`len(sys.argv)` different from 3), the program prints the usage line to
standard output and exits with code 1 with no watch started. -/
theorem c8_arity_mismatch_exits (prog : String) (args : List String)
    (h : args.length ≠ 2) :
    mainStart (prog :: args) = ⟨[usageMsg], some 1, none⟩ := by
  have h3 : (prog :: args).length ≠ 3 := by
    simp only [List.length_cons]
    omega
  simp [mainStart, h3, h]

/-- Witness for C8 with zero positional arguments. -/
theorem c8_arity_mismatch_exits_witness :
    mainStart ["FileDetection"] = ⟨[usageMsg], some 1, none⟩ :=
  c8_arity_mismatch_exits "FileDetection" [] (by decide)

/-- C9: whenever the foreground wait loop ends — because IS_RUNNING was
observed false or because a KeyboardInterrupt arrived — the actions it
performs end with the blocking acknowledgment read, so the process only
exits after the user acknowledgment. -/
theorem c9_ack_before_exit (flags intr : Nat → Bool) (i fuel : Nat) (acts : List FgAction)
    (h : foregroundLoop flags intr i fuel = some acts) :
    ∃ pre, acts = pre ++ [FgAction.readAck] := by
  induction fuel generalizing i acts with
  | zero => simp [foregroundLoop] at h
  | succ n ih =>
    rw [foregroundLoop] at h
    cases hf : flags i with
    | false =>
      rw [hf] at h
      simp at h
      exact ⟨[], by simp [← h]⟩
    | true =>
      rw [hf] at h
      cases hi : intr i with
      | true =>
        rw [hi] at h
        simp at h
        exact ⟨[FgAction.sleepSec, FgAction.printInterrupted], by simp [← h]⟩
      | false =>
        rw [hi] at h
        simp only [Bool.not_true, if_false] at h
        cases hrec : foregroundLoop flags intr (i + 1) n with
        | none => rw [hrec] at h; cases h
        | some as =>
          rw [hrec] at h
          simp at h
          rcases ih (i + 1) as hrec with ⟨pre, hpre⟩
          exact ⟨FgAction.sleepSec :: pre, by simp [← h, hpre]⟩

/-- Witness for C9: flag observed false at once. -/
theorem c9_ack_before_exit_witness :
    foregroundLoop (fun _ => false) (fun _ => false) 0 1 = some [FgAction.readAck] ∧
    ∃ pre, [FgAction.readAck] = pre ++ [FgAction.readAck] :=
  ⟨rfl, c9_ack_before_exit (fun _ => false) (fun _ => false) 0 1 [FgAction.readAck] rfl⟩

/-- C1 counterexample: with a process table whose first matching process
cannot be killed (the `proc.kill()` call raises) and a second matching
process after it, the responder does not complete: the exception
propagates, the second matching process is never attempted, and the
truncate step is never attempted (the file keeps its content).  This
refutes the claim that the responder always completes with no propagated
failure and that a single kill failure does not prevent the remaining kill
attempts or the truncate step. -/
theorem c1_counterexample :
    (respond "x" [⟨1, "x", false⟩, ⟨2, "x", true⟩] (fun _ => false) (some "data")).2.2 = true ∧
    Ev.killAttempt 2 ∉
      (respond "x" [⟨1, "x", false⟩, ⟨2, "x", true⟩] (fun _ => false) (some "data")).1 ∧
    Ev.openAttempt ∉
      (respond "x" [⟨1, "x", false⟩, ⟨2, "x", true⟩] (fun _ => false) (some "data")).1 ∧
    (respond "x" [⟨1, "x", false⟩, ⟨2, "x", true⟩] (fun _ => false) (some "data")).2.1 =
      some "data" := by
  decide

/-- C1 (amended): when every kill call on a matching process returns
normally, the responder completes with no propagated failure, it issues
one termination call per matching process and then attempts the truncate
step; the truncate step itself never propagates a failure (its only
modelled failure, PermissionError, is always caught). -/
theorem c1_responder_completes_when_kills_ok (process_name : String)
    (procs : List ProcInfo) (locked : Nat → Bool) (fs : Option String)
    (hk : ∀ p ∈ procs, p.name = process_name → p.killOk = true) :
    (respond process_name procs locked fs).2.2 = false ∧
    (respond process_name procs locked fs).1 =
      ((procs.filter fun p => p.name == process_name).map fun p => Ev.killAttempt p.pid) ++
        (clear_file_content locked fs).1 ∧
    Ev.openAttempt ∈ (respond process_name procs locked fs).1 := by
  have hkeq := kill_process_by_name_of_ok process_name procs hk
  refine ⟨by simp [respond, hkeq], by simp [respond, hkeq], ?_⟩
  have hopen : Ev.openAttempt ∈ (clear_file_content locked fs).1 :=
    clearLoop_open_mem locked fs 0 4
  simp only [respond, hkeq]
  exact List.mem_append.mpr (Or.inr hopen)

/-- Witness for the amended C1. -/
theorem c1_responder_completes_when_kills_ok_witness :
    (respond "x" [⟨1, "x", true⟩] (fun _ => false) (some "d")).2.2 = false ∧
    (respond "x" [⟨1, "x", true⟩] (fun _ => false) (some "d")).1 =
      ((([⟨1, "x", true⟩] : List ProcInfo).filter fun p => p.name == "x").map
          fun p => Ev.killAttempt p.pid) ++
        (clear_file_content (fun _ => false) (some "d")).1 ∧
    Ev.openAttempt ∈ (respond "x" [⟨1, "x", true⟩] (fun _ => false) (some "d")).1 :=
  c1_responder_completes_when_kills_ok "x" [⟨1, "x", true⟩] (fun _ => false) (some "d")
    (by decide)

/-- C6 counterexample: a table with two processes matching the selector,
the first of which raises on `proc.kill()`, receives only one termination
call and the exception escapes, refuting the unconditional claim that N
matches always receive N termination calls. -/
theorem c6_counterexample :
    ((kill_process_by_name "x" [⟨1, "x", false⟩, ⟨2, "x", true⟩]).1).length = 1 ∧
    ([⟨1, "x", false⟩, ⟨2, "x", true⟩] : List ProcInfo).countP (fun p => p.name == "x") = 2 ∧
    (kill_process_by_name "x" [⟨1, "x", false⟩, ⟨2, "x", true⟩]).2 = true := by
  decide

/-- C6 (amended): when every matching process can be killed, the kill step
issues exactly one termination call per process whose name equals the
selector (so N calls for N matches, and in particular no calls and no
error for zero matches), and no error escapes. -/
theorem c6_kill_calls_match_count (process_name : String) (procs : List ProcInfo)
    (hk : ∀ p ∈ procs, p.name = process_name → p.killOk = true) :
    (kill_process_by_name process_name procs).1 =
      ((procs.filter fun p => p.name == process_name).map fun p => Ev.killAttempt p.pid) ∧
    (kill_process_by_name process_name procs).2 = false ∧
    ((kill_process_by_name process_name procs).1).length =
      procs.countP fun p => p.name == process_name := by
  have hkeq := kill_process_by_name_of_ok process_name procs hk
  refine ⟨by simp [hkeq], by simp [hkeq], ?_⟩
  simp [hkeq, List.countP_eq_length_filter]

/-- Witness for the amended C6: two matches among three processes, and
separately zero matches. -/
theorem c6_kill_calls_match_count_witness :
    (kill_process_by_name "x" [⟨1, "a", true⟩, ⟨2, "x", true⟩, ⟨3, "x", true⟩]).1 =
      ((([⟨1, "a", true⟩, ⟨2, "x", true⟩, ⟨3, "x", true⟩] : List ProcInfo).filter
            fun p => p.name == "x").map fun p => Ev.killAttempt p.pid) ∧
    (kill_process_by_name "x" [⟨1, "a", true⟩, ⟨2, "x", true⟩, ⟨3, "x", true⟩]).2 = false ∧
    ((kill_process_by_name "x" [⟨1, "a", true⟩, ⟨2, "x", true⟩, ⟨3, "x", true⟩]).1).length =
      ([⟨1, "a", true⟩, ⟨2, "x", true⟩, ⟨3, "x", true⟩] : List ProcInfo).countP
        fun p => p.name == "x" :=
  c6_kill_calls_match_count "x" [⟨1, "a", true⟩, ⟨2, "x", true⟩, ⟨3, "x", true⟩] (by decide)

/-- C2: in every monitoring run the trace starts with a (possibly empty)
block of kill calls followed only by non-kill events, so the kill step is
attempted strictly before the truncate step; and whenever IS_RUNNING is
set to false, that assignment is the last event of the trace, preceded by
the kill block and by a truncation block that contains at least one open
attempt — so the flag only goes false strictly after both steps were
attempted, whatever the outcome of the individual calls. -/
theorem c2_kill_before_truncate_before_flag (file_to_watch process_name : String)
    (procs : List ProcInfo) (locked : Nat → Bool) (fs : Option String)
    (batches : List (List String)) (r : RunResult)
    (hr : r = monitor_file file_to_watch process_name procs locked fs batches) :
    (∃ kt rest, r.trace = kt ++ rest ∧ (∀ e ∈ kt, isKill e = true) ∧
      (∀ e ∈ rest, isKill e = false)) ∧
    (Ev.setRunningFalse ∈ r.trace →
      ∃ kt ct, r.trace = kt ++ ct ++ [Ev.setRunningFalse] ∧
        (∀ e ∈ kt, isKill e = true) ∧
        (∀ e ∈ ct, e = Ev.openAttempt ∨ e = Ev.sleep1) ∧
        Ev.openAttempt ∈ ct) := by
  subst hr
  unfold monitor_file
  rcases monitorLoop_shape (basename file_to_watch) process_name procs locked fs batches with
    h | ⟨hk, h⟩ | ⟨hk, h⟩
  · rw [h]
    refine ⟨⟨[], [], by simp, by simp, by simp⟩, ?_⟩
    intro hmem
    simp at hmem
  · rw [h]
    refine ⟨⟨(kill_process_by_name process_name procs).1, [], by simp,
      kill_events_isKill _ _, by simp⟩, ?_⟩
    intro hmem
    exact absurd hmem (setRunningFalse_not_mem_kill _ _)
  · rw [h]
    constructor
    · refine ⟨(kill_process_by_name process_name procs).1,
        (clear_file_content locked fs).1 ++ [Ev.setRunningFalse], by simp,
        kill_events_isKill _ _, ?_⟩
      intro e he
      rcases List.mem_append.mp he with h2 | h2
      · rcases clearLoop_events locked fs 5 0 e h2 with h3 | h3 <;> simp [h3, isKill]
      · simp at h2
        simp [h2, isKill]
    · intro _
      exact ⟨(kill_process_by_name process_name procs).1, (clear_file_content locked fs).1,
        rfl, kill_events_isKill _ _, clearLoop_events locked fs 5 0,
        clearLoop_open_mem locked fs 0 4⟩

/-- Witness for C2 on a concrete triggering run. -/
theorem c2_kill_before_truncate_before_flag_witness :
    (∃ kt rest,
      (monitor_file "C:\\dir\\f.txt" "x" [⟨1, "x", true⟩] (fun _ => false) (some "hi")
          [["f.txt"]]).trace = kt ++ rest ∧
      (∀ e ∈ kt, isKill e = true) ∧ (∀ e ∈ rest, isKill e = false)) ∧
    (Ev.setRunningFalse ∈
        (monitor_file "C:\\dir\\f.txt" "x" [⟨1, "x", true⟩] (fun _ => false) (some "hi")
          [["f.txt"]]).trace →
      ∃ kt ct,
        (monitor_file "C:\\dir\\f.txt" "x" [⟨1, "x", true⟩] (fun _ => false) (some "hi")
            [["f.txt"]]).trace = kt ++ ct ++ [Ev.setRunningFalse] ∧
        (∀ e ∈ kt, isKill e = true) ∧
        (∀ e ∈ ct, e = Ev.openAttempt ∨ e = Ev.sleep1) ∧
        Ev.openAttempt ∈ ct) :=
  c2_kill_before_truncate_before_flag "C:\\dir\\f.txt" "x" [⟨1, "x", true⟩] (fun _ => false)
    (some "hi") [["f.txt"]] _ rfl

/-- C3: over any sequence of notification batches the responder is invoked
at most once and the assignment of false to IS_RUNNING appears at most
once in the trace, even when several events of one batch match the target
file name. -/
theorem c3_responder_one_shot (file_to_watch process_name : String)
    (procs : List ProcInfo) (locked : Nat → Bool) (fs : Option String)
    (batches : List (List String)) (r : RunResult)
    (hr : r = monitor_file file_to_watch process_name procs locked fs batches) :
    r.triggers ≤ 1 ∧ r.trace.count Ev.setRunningFalse ≤ 1 := by
  subst hr
  unfold monitor_file
  rcases monitorLoop_shape (basename file_to_watch) process_name procs locked fs batches with
    h | ⟨hk, h⟩ | ⟨hk, h⟩ <;> rw [h]
  · simp
  · refine ⟨le_refl 1, ?_⟩
    have h1 := List.count_eq_zero.mpr (setRunningFalse_not_mem_kill process_name procs)
    simp [h1]
  · refine ⟨le_refl 1, ?_⟩
    have h1 := List.count_eq_zero.mpr (setRunningFalse_not_mem_kill process_name procs)
    have h2 := List.count_eq_zero.mpr (setRunningFalse_not_mem_clear locked fs)
    simp [List.count_append, h1, h2]

/-- Witness for C3 on a batch holding two matching events. -/
theorem c3_responder_one_shot_witness :
    (monitor_file "C:\\dir\\f.txt" "x" [⟨1, "x", true⟩] (fun _ => false) (some "hi")
        [["f.txt", "f.txt"], ["f.txt"]]).triggers ≤ 1 ∧
    ((monitor_file "C:\\dir\\f.txt" "x" [⟨1, "x", true⟩] (fun _ => false) (some "hi")
        [["f.txt", "f.txt"], ["f.txt"]]).trace).count Ev.setRunningFalse ≤ 1 :=
  c3_responder_one_shot "C:\\dir\\f.txt" "x" [⟨1, "x", true⟩] (fun _ => false) (some "hi")
    [["f.txt", "f.txt"], ["f.txt"]] _ rfl

/-- C5: for a pre-existing watched file with non-empty content, no lock
contention and no failing kill call, a run in which the watcher fired
leaves the watched file existing with length exactly zero. -/
theorem c5_truncated_to_empty (file_to_watch process_name : String)
    (procs : List ProcInfo) (locked : Nat → Bool) (s : String)
    (batches : List (List String)) (r : RunResult)
    (hr : r = monitor_file file_to_watch process_name procs locked (some s) batches)
    (_hne : s ≠ "")
    (hl : ∀ i, locked i = false)
    (hk : ∀ p ∈ procs, p.name = process_name → p.killOk = true)
    (ht : r.triggers = 1) :
    r.file = some "" ∧ ∃ t, r.file = some t ∧ t.length = 0 := by
  subst hr
  unfold monitor_file at ht ⊢
  have hkeq := kill_process_by_name_of_ok process_name procs hk
  rcases monitorLoop_shape (basename file_to_watch) process_name procs locked (some s)
      batches with h | ⟨hk2, h⟩ | ⟨hk2, h⟩
  · rw [h] at ht
    simp at ht
  · rw [hkeq] at hk2
    simp at hk2
  · rw [h]
    have hclear : (clear_file_content locked (some s)).2.1 = some "" := by
      simp [clear_file_content, clearLoop, hl 0]
    exact ⟨hclear, "", hclear, rfl⟩

/-- Witness for C5 on a concrete triggering run. -/
theorem c5_truncated_to_empty_witness :
    (monitor_file "C:\\dir\\f.txt" "x" [⟨7, "x", true⟩] (fun _ => false) (some "hello")
        [["f.txt"]]).file = some "" ∧
    ∃ t,
      (monitor_file "C:\\dir\\f.txt" "x" [⟨7, "x", true⟩] (fun _ => false) (some "hello")
          [["f.txt"]]).file = some t ∧ t.length = 0 :=
  c5_truncated_to_empty "C:\\dir\\f.txt" "x" [⟨7, "x", true⟩] (fun _ => false) "hello"
    [["f.txt"]] _ rfl (by decide) (fun _ => rfl) (by decide) (by decide)

/-- C7: a run all of whose notification events carry a file name different
from the base name of the watched path never invokes the responder: no
event is traced, the file is untouched, IS_RUNNING stays true and no
exception escapes — even when those events happened in the same
directory. -/
theorem c7_nonmatching_never_triggers (file_to_watch process_name : String)
    (procs : List ProcInfo) (locked : Nat → Bool) (fs : Option String)
    (batches : List (List String)) (r : RunResult)
    (hr : r = monitor_file file_to_watch process_name procs locked fs batches)
    (h : ∀ b ∈ batches, ∀ f ∈ b, f ≠ basename file_to_watch) :
    r.triggers = 0 ∧ r.trace = [] ∧ r.file = fs ∧ r.running = true ∧ r.raised = false := by
  subst hr
  unfold monitor_file
  rw [monitorLoop_nomatch _ _ _ _ _ _ h]
  exact ⟨rfl, rfl, rfl, rfl, rfl⟩

/-- Witness for C7 on concrete non-matching events in the watched
directory. -/
theorem c7_nonmatching_never_triggers_witness :
    (monitor_file "C:\\dir\\f.txt" "x" [⟨1, "x", true⟩] (fun _ => false) (some "hi")
        [["other.txt"], ["g.txt"]]).triggers = 0 ∧
    (monitor_file "C:\\dir\\f.txt" "x" [⟨1, "x", true⟩] (fun _ => false) (some "hi")
        [["other.txt"], ["g.txt"]]).trace = [] ∧
    (monitor_file "C:\\dir\\f.txt" "x" [⟨1, "x", true⟩] (fun _ => false) (some "hi")
        [["other.txt"], ["g.txt"]]).file = some "hi" ∧
    (monitor_file "C:\\dir\\f.txt" "x" [⟨1, "x", true⟩] (fun _ => false) (some "hi")
        [["other.txt"], ["g.txt"]]).running = true ∧
    (monitor_file "C:\\dir\\f.txt" "x" [⟨1, "x", true⟩] (fun _ => false) (some "hi")
        [["other.txt"], ["g.txt"]]).raised = false :=
  c7_nonmatching_never_triggers "C:\\dir\\f.txt" "x" [⟨1, "x", true⟩] (fun _ => false)
    (some "hi") [["other.txt"], ["g.txt"]] _ rfl (by decide)

end FileDetection
